import Mathlib

/-!
# MAPACEBAs: the district search and geolocation pipeline of `script.js`

A shallow embedding of the page script: the feed loader (the `fetch(...).then(csv => ...)`
callback), `geolocalizar` and `buscarPorDistrito`, with the page (record store, status
region, map layers, camera, console, network trace, clock) as an explicit state.

Strings are lists of characters.  The string primitives of the language that the script
calls (`trim`, `split`, `includes`, `toLowerCase`, `replace` with the literal pattern
`/^CEBA\s*/i`, `encodeURIComponent`) are given as structural functions.
-/

namespace MapaCebas

/-- A string value of the script. -/
abbrev Texto := List Char

/-! ## String primitives -/

/-- White space and line terminators: what `trim()` strips and what `\s` matches. -/
def esEspacio (c : Char) : Bool :=
  let n := c.toNat
  n == 9 || n == 10 || n == 11 || n == 12 || n == 13 || n == 32 || n == 160 ||
  n == 0x1680 || (0x2000 ≤ n && n ≤ 0x200A) || n == 0x2028 || n == 0x2029 ||
  n == 0x202F || n == 0x205F || n == 0x3000 || n == 0xFEFF

/-- The method `trimStart()`. -/
def trimStart (s : Texto) : Texto := s.dropWhile esEspacio

/-- The method `trimEnd()`. -/
def trimEnd (s : Texto) : Texto := (s.reverse.dropWhile esEspacio).reverse

/-- The method `trim()`: white space removed at both ends. -/
def trim (s : Texto) : Texto := trimEnd (trimStart s)

/-- The method `split(sep)` for a one-character separator; the empty string gives one
empty field. -/
def split (sep : Char) : Texto → List Texto
  | [] => [[]]
  | c :: cs =>
    if c = sep then [] :: split sep cs
    else match split sep cs with
      | [] => [[c]]
      | f :: fs => (c :: f) :: fs

/-- The method `includes(needle)`: `needle` occurs in `hay` as a contiguous block. -/
def includes : Texto → Texto → Bool
  | [], needle => needle.isEmpty
  | c :: cs, needle => needle.isPrefixOf (c :: cs) || includes cs needle

/-- Lower-case form of one character: the one-to-one mappings of Basic Latin and of the
Latin-1 Supplement (the alphabet of the feed); any other character is left as it is. -/
def minuscula (c : Char) : Char :=
  let n := c.toNat
  if (65 ≤ n ∧ n ≤ 90) ∨ (192 ≤ n ∧ n ≤ 222 ∧ n ≠ 215) then Char.ofNat (n + 32) else c

/-- The method `toLowerCase()`. -/
def toLowerCase (s : Texto) : Texto := s.map minuscula

/-- Truthiness of a value that is a string or `undefined`. -/
def verdadero : Option Texto → Bool
  | none => false
  | some s => !s.isEmpty

/-! ## Data model -/

/-- An entry of `cebasData`: the object `{ nombre, distrito }`. -/
structure Ceba where
  nombre : Texto
  distrito : Texto
  deriving DecidableEq

/-- The numbers that `parseFloat` yields for latitude and longitude.  The script only
stores them and hands them to the map, so they are kept as integers here. -/
abbrev Numero := Int

/-- The object `{ lat, lng }` returned by `geolocalizar`. -/
structure Coordenadas where
  lat : Numero
  lng : Numero
  deriving DecidableEq

/-- A layer of the map: a marker with the content of its popup, or any other layer
(tiles, an open popup). -/
inductive Capa where
  | marcador (lat lng : Numero) (popup : Texto)
  | otra (id : Nat)
  deriving DecidableEq

/-- Camera of the map: what `setView([lat, lng], zoom)` sets. -/
structure Vista where
  lat : Numero
  lng : Numero
  zoom : Nat
  deriving DecidableEq

/-- The lines the script writes on the console, one constructor per `console.*` call,
with the values interpolated in its text. -/
inductive Linea where
  /-- Line 81, warn: `[Fila n] Datos incompletos. Se omitió.` -/
  | filaIncompleta (fila : Nat)
  /-- Line 84, warn: `[Fila n] Fila malformada: "row". Se omitió.` -/
  | filaMalformada (fila : Nat) (row : Texto)
  /-- Line 88, log: `[Paso 1] n CEBAs cargados desde el CSV.` -/
  | cargados (n : Nat)
  /-- Line 91, error: `[Paso 1] Error al cargar los datos del CSV:` -/
  | errorCarga
  /-- Line 99, log: `[Paso 2] Iniciando proceso de búsqueda...` -/
  | inicioBusqueda
  /-- Line 103, warn: `[Paso 2] No se ingresó ningún distrito.` -/
  | sinDistrito
  /-- Line 108, log: `[Paso 2] Input de distrito recibido: "input"` -/
  | inputRecibido (input : Texto)
  /-- Line 111, warn: `[Paso 2] La base de datos aún no está cargada.` -/
  | baseNoCargada
  /-- Line 116, log: `[Paso 3] Buscando coincidencias en base de datos...` -/
  | buscandoCoincidencias
  /-- Line 118, log: `[Paso 3] CEBAs encontrados en el distrito "input": n` -/
  | totalEncontrados (input : Texto) (n : Nat)
  /-- Line 128, warn: `[Paso 3] No se encontraron CEBAs para ese distrito.` -/
  | sinCoincidencias
  /-- Line 133, log: `[Paso 4] Iniciando proceso de geolocalización de coincidencias...` -/
  | inicioGeolocalizacion
  /-- Line 27, log: `[Paso 4] Geolocalizando: "query"...` -/
  | geolocalizando (query : Texto)
  /-- Line 33, log: `[Paso 4] Coordenadas encontradas para: "nombre"` -/
  | coordenadasEncontradas (nombre : Texto)
  /-- Line 39, warn: `[Paso 4] No se encontraron coordenadas para: "nombre"` -/
  | sinCoordenadas (nombre : Texto)
  /-- Line 43, error: `[Paso 4] Error al consultar Nominatim para: "query"` -/
  | errorNominatim (query : Texto)
  /-- Line 152, log: `[Paso 5] n CEBAs fueron geolocalizados y mostrados en el mapa.` -/
  | geolocalizados (n : Nat)
  /-- Line 155, warn: `[Paso 5] Ninguno de los CEBAs fue geolocalizado con éxito.` -/
  | ningunoGeolocalizado
  /-- Line 159, log: `[Paso 6] Proceso completo finalizado.` -/
  | finalizado
  deriving DecidableEq

/-- What the script does on the network and with timers: a lookup request sent at clock
time `t` (milliseconds), or a timer of `ms` milliseconds started at `t`. -/
inductive Evento where
  | consulta (t : Nat) (url : Texto)
  | espera (t : Nat) (ms : Nat)
  deriving DecidableEq

/-- The page: the module variable `cebasData`, the status region `estadoBusqueda`
(its `innerText` and `style.color`), the layers and the camera of the map, the console,
the trace of network requests and timers, and a clock in milliseconds. -/
structure Pagina where
  cebasData : List Ceba
  estado : Texto × Texto
  capas : List Capa
  vista : Vista
  consola : List Linea
  red : List Evento
  reloj : Nat
  deriving DecidableEq

/-- One call `console.log` / `console.warn` / `console.error`. -/
def Pagina.escribir (p : Pagina) (l : Linea) : Pagina :=
  { p with consola := p.consola ++ [l] }

/-- The default of the parameter `color` of `mostrarEstado`. -/
def colorPorDefecto : Texto := "#d63333".toList

/-- The function `mostrarEstado(texto, color = '#d63333')`; `none` is a call that leaves
the second argument out. -/
def mostrarEstado (p : Pagina) (texto : Texto) (color : Option Texto) : Pagina :=
  { p with estado := (texto, color.getD colorPorDefecto) }

/-! ## Feed loader -/

/-- Body of `rows.forEach((row, index) => ...)`, lines 73 to 86. -/
def procesarFila (p : Pagina) (row : Texto) (index : Nat) : Pagina :=
  let columnas := split ',' row
  if columnas.length ≥ 2 then
    let nombre := (columnas.get? 0).map trim
    let distrito := (columnas.get? 1).map (fun c => toLowerCase (trim c))
    if verdadero nombre && verdadero distrito then
      match nombre, distrito with
      | some n, some d => { p with cebasData := p.cebasData ++ [{ nombre := n, distrito := d }] }
      | _, _ => p
    else
      p.escribir (.filaIncompleta (index + 2))
  else
    p.escribir (.filaMalformada (index + 2) row)

/-- The loop `rows.forEach(...)`, the rows visited in order from index `index` on. -/
def forEachFila (p : Pagina) : List Texto → Nat → Pagina
  | [], _ => p
  | row :: rest, index => forEachFila (procesarFila p row index) rest (index + 1)

/-- The expression `csv.trim().split('\n').slice(1)`, line 70. -/
def filas (csv : Texto) : List Texto := (split '\n' (trim csv)).drop 1

/-- The callback `.then(csv => ...)`, lines 69 to 89. -/
def alCargarCSV (p : Pagina) (csv : Texto) : Pagina :=
  let rows := filas csv
  let p1 := { p with cebasData := [] }
  let p2 := forEachFila p1 rows 0
  p2.escribir (.cargados p2.cebasData.length)

/-- The callback `.catch(error => ...)`, lines 90 to 92. -/
def alFallarCarga (p : Pagina) : Pagina :=
  p.escribir .errorCarga

/-- The record of a data row in the words of the specification: the row split on the
comma has at least two fields, the first two are not empty once trimmed, and the record
is the trimmed first field with the trimmed, lower-cased second field. -/
def registroSegunSpec (row : Texto) : Option Ceba :=
  match split ',' row with
  | n :: d :: _ =>
    if trim n ≠ [] ∧ trim d ≠ [] then some { nombre := trim n, distrito := toLowerCase (trim d) }
    else none
  | _ => none

/-- The warning written for a row that gives no record, lines 81 and 84. -/
def avisoDeFila (row : Texto) (index : Nat) : Linea :=
  if (split ',' row).length ≥ 2 then .filaIncompleta (index + 2)
  else .filaMalformada (index + 2) row

/-- The warnings of a list of rows visited from index `index` on, in the words of the
specification: one for each row without a record, in row order. -/
def avisosSegunSpec : List Texto → Nat → List Linea
  | [], _ => []
  | row :: rest, index =>
    (if (registroSegunSpec row).isSome then [] else [avisoDeFila row index]) ++
      avisosSegunSpec rest (index + 1)

/-! ## Geocoder -/

/-- The call `nombre.replace(/^CEBA\s*/i, '')`: when the name starts with the letters
C, E, B, A in either case, they are removed together with the white space after them. -/
def quitarCeba (nombre : Texto) : Texto :=
  match nombre with
  | c :: e :: b :: a :: resto =>
    if (c = 'C' ∨ c = 'c') ∧ (e = 'E' ∨ e = 'e') ∧ (b = 'B' ∨ b = 'b') ∧ (a = 'A' ∨ a = 'a')
    then resto.dropWhile esEspacio
    else nombre
  | _ => nombre

/-- The constant `nombreLimpio`, line 23. -/
def nombreLimpio (nombre : Texto) : Texto := trim (quitarCeba nombre)

/-- The constant `query`, line 24. -/
def consultaDe (nombre distrito : Texto) : Texto :=
  nombreLimpio nombre ++ ", ".toList ++ distrito ++ ", Perú".toList

/-- Characters that `encodeURIComponent` leaves as they are: ASCII letters and digits
and the marks `- _ . ! ~ * ' ( )`. -/
def noReservado (c : Char) : Bool :=
  let n := c.toNat
  (48 ≤ n && n ≤ 57) || (65 ≤ n && n ≤ 90) || (97 ≤ n && n ≤ 122) ||
  n == 45 || n == 95 || n == 46 || n == 33 || n == 126 || n == 42 || n == 39 ||
  n == 40 || n == 41

/-- UTF-8 bytes of a character. -/
def utf8 (c : Char) : List Nat :=
  let n := c.toNat
  if n < 0x80 then [n]
  else if n < 0x800 then [0xC0 + n / 64, 0x80 + n % 64]
  else if n < 0x10000 then [0xE0 + n / 4096, 0x80 + n / 64 % 64, 0x80 + n % 64]
  else [0xF0 + n / 262144, 0x80 + n / 4096 % 64, 0x80 + n / 64 % 64, 0x80 + n % 64]

/-- Upper-case hexadecimal digit. -/
def digitoHex (d : Nat) : Char :=
  if d < 10 then Char.ofNat (48 + d) else Char.ofNat (55 + d)

/-- Percent escape of one byte. -/
def escape (b : Nat) : Texto := ['%', digitoHex (b / 16), digitoHex (b % 16)]

/-- The function `encodeURIComponent`. -/
def encodeURIComponent (s : Texto) : Texto :=
  (s.map (fun c => if noReservado c then [c] else ((utf8 c).map escape).flatten)).flatten

/-- The constant `url`, line 25. -/
def urlDe (query : Texto) : Texto :=
  "https://nominatim.openstreetmap.org/search?format=json&q=".toList ++
    encodeURIComponent query ++ "&limit=1".toList

/-- A candidate of the lookup service, with the numbers `parseFloat` reads from its
fields `lat` and `lon`. -/
structure Candidato where
  lat : Numero
  lon : Numero
  deriving DecidableEq

/-- Outcome of `fetch(url)` followed by `response.json()`: the list of candidates, or
a failure (the request or the decoding of the body throws). -/
inductive Respuesta where
  | datos (candidatos : List Candidato)
  | fallo
  deriving DecidableEq

/-- Behaviour of the surroundings during one search: the outcome of the `i`-th lookup
(by the url requested), the time in milliseconds that lookup takes, and by how many
milliseconds the `i`-th timer fires late. -/
structure Entorno where
  respuesta : Nat → Texto → Respuesta
  latencia : Nat → Nat
  holgura : Nat → Nat

/-- The function `geolocalizar(nombre, distrito)`, as the `i`-th lookup of a search. -/
def geolocalizar (e : Entorno) (i : Nat) (nombre distrito : Texto) (p : Pagina) :
    Option Coordenadas × Pagina :=
  let query := consultaDe nombre distrito
  let url := urlDe query
  let p1 := p.escribir (.geolocalizando query)
  let p2 := { p1 with red := p1.red ++ [Evento.consulta p1.reloj url]
                      reloj := p1.reloj + e.latencia i }
  match e.respuesta i url with
  | .datos (c :: _) =>
    (some { lat := c.lat, lng := c.lon }, p2.escribir (.coordenadasEncontradas nombre))
  | .datos [] => (none, p2.escribir (.sinCoordenadas nombre))
  | .fallo => (none, p2.escribir (.errorNominatim query))

/-! ## Search pipeline -/

/-- The statement `await new Promise(res => setTimeout(res, ms))` as the `i`-th wait. -/
def esperar (e : Entorno) (i : Nat) (ms : Nat) (p : Pagina) : Pagina :=
  { p with red := p.red ++ [Evento.espera p.reloj ms]
           reloj := p.reloj + ms + e.holgura i }

/-- Popup text of the marker of the user (line 173), by which markers are told apart
(line 122). -/
def etiquetaUsuario : Texto := "Estás aquí".toList

/-- Popup content of a facility marker, line 143. -/
def popupDe (ceba : Ceba) : Texto :=
  "<b>".toList ++ ceba.nombre ++ "</b><br>".toList ++ ceba.distrito

/-- Condition of line 122: the layer is a marker whose popup content does not include
the text of the marker of the user. -/
def seQuita : Capa → Bool
  | .marcador _ _ popup => !includes popup etiquetaUsuario
  | .otra _ => false

/-- The loop `map.eachLayer(...)` of lines 121 to 125. -/
def limpiarMarcadores (p : Pagina) : Pagina :=
  { p with capas := p.capas.filter (fun capa => !seQuita capa) }

/-- Variables of the geocoding loop: the page, `primeraUbicacion`, `geolocalizados`. -/
structure Bucle where
  pagina : Pagina
  primeraUbicacion : Option Coordenadas
  geolocalizados : Nat
  deriving DecidableEq

/-- Body of `for (const ceba of encontrados)`, lines 139 to 147, as iteration `i`. -/
def iterar (e : Entorno) (i : Nat) (b : Bucle) (ceba : Ceba) : Bucle :=
  let r := geolocalizar e i ceba.nombre ceba.distrito b.pagina
  let b1 : Bucle :=
    match r.1 with
    | some coords =>
      { pagina := { r.2 with capas := r.2.capas ++ [Capa.marcador coords.lat coords.lng (popupDe ceba)] }
        primeraUbicacion :=
          match b.primeraUbicacion with
          | none => some coords
          | some primera => some primera
        geolocalizados := b.geolocalizados + 1 }
    | none => { b with pagina := r.2 }
  { b1 with pagina := esperar e i 1000 b1.pagina }

/-- The loop `for (const ceba of encontrados)`, from iteration `i` on. -/
def bucle (e : Entorno) : List Ceba → Nat → Bucle → Bucle
  | [], _, b => b
  | ceba :: rest, i, b => bucle e rest (i + 1) (iterar e i b ceba)

/-- Status text of line 98. -/
def msgBuscando : Texto := "⏳ Buscando CEBAs en el distrito...".toList

/-- Status text of line 104. -/
def msgIngresaDistrito : Texto := "⚠️ Por favor, ingresa un distrito.".toList

/-- Status text of line 112. -/
def msgBaseNoCargada : Texto := "⚠️ La base de datos aún no está cargada.".toList

/-- Status text of line 129. -/
def msgSinCoincidencias : Texto := "⚠️ No se encontraron CEBAs para ese distrito.".toList

/-- Status text of line 153. -/
def msgEncontrados (geolocalizados : Nat) : Texto :=
  "✅ Se encontraron ".toList ++ (Nat.repr geolocalizados).toList ++
    " CEBAs en el distrito.".toList

/-- Status text of line 156. -/
def msgNingunoUbicado : Texto := "⚠️ No se pudo ubicar ningún CEBA en ese distrito.".toList

/-- The constant `input`, line 101, from the value of the field `districtInput`. -/
def inputDe (valor : Texto) : Texto := toLowerCase (trim valor)

/-- The constant `encontrados`, line 117. -/
def encontradosEn (cebasData : List Ceba) (input : Texto) : List Ceba :=
  cebasData.filter (fun c => includes c.distrito input)

/-- Lines 150 to 159: the camera and the status once the loop has ended. -/
def finalizar (b : Bucle) : Pagina :=
  let p :=
    match b.primeraUbicacion with
    | some primera =>
      let p1 := { b.pagina with vista := { lat := primera.lat, lng := primera.lng, zoom := 13 } }
      let p2 := p1.escribir (.geolocalizados b.geolocalizados)
      mostrarEstado p2 (msgEncontrados b.geolocalizados) none
    | none =>
      let p1 := b.pagina.escribir .ningunoGeolocalizado
      mostrarEstado p1 msgNingunoUbicado none
  p.escribir .finalizado

/-- The function `buscarPorDistrito()`, with `valor` the value of the text field. -/
def buscarPorDistrito (e : Entorno) (valor : Texto) (p : Pagina) : Pagina :=
  let p1 := (mostrarEstado p msgBuscando none).escribir .inicioBusqueda
  let input := inputDe valor
  if input.isEmpty then
    mostrarEstado (p1.escribir .sinDistrito) msgIngresaDistrito none
  else
    let p2 := p1.escribir (.inputRecibido input)
    if p2.cebasData.length = 0 then
      mostrarEstado (p2.escribir .baseNoCargada) msgBaseNoCargada none
    else
      let p3 := p2.escribir .buscandoCoincidencias
      let encontrados := encontradosEn p3.cebasData input
      let p4 := p3.escribir (.totalEncontrados input encontrados.length)
      let p5 := limpiarMarcadores p4
      if encontrados.length = 0 then
        mostrarEstado (p5.escribir .sinCoincidencias) msgSinCoincidencias none
      else
        let p6 := p5.escribir .inicioGeolocalizacion
        finalizar (bucle e encontrados 0
          { pagina := p6, primeraUbicacion := none, geolocalizados := 0 })

/-! ## Observations used to state the properties -/

/-- Urls of the lookups of a trace, in the order they were sent. -/
def urlsDe (red : List Evento) : List Texto :=
  red.filterMap (fun ev => match ev with
    | .consulta _ url => some url
    | .espera _ _ => none)

/-- The url that `geolocalizar` requests for a record. -/
def urlDeCeba (ceba : Ceba) : Texto := urlDe (consultaDe ceba.nombre ceba.distrito)

/-- What `geolocalizar` returns for an outcome of the lookup: the coordinates of the
first candidate, and `null` when there is no candidate or the lookup fails. -/
def coordenadasDe : Respuesta → Option Coordenadas
  | .datos (c :: _) => some { lat := c.lat, lng := c.lon }
  | .datos [] => none
  | .fallo => none

/-- The marker the loop places for a located record, lines 141 to 143. -/
def marcadorDe (x : Ceba × Coordenadas) : Capa :=
  .marcador x.2.lat x.2.lng (popupDe x.1)

/-- The network trace of the geocoding stage in the words of the specification: for
each matched record in order, one lookup, then a wait of 1000 ms; `i` is the number of
the first lookup and `t` the clock time at which it is sent. -/
def trazaSegunSpec (e : Entorno) : List Ceba → Nat → Nat → List Evento
  | [], _, _ => []
  | ceba :: rest, i, t =>
    .consulta t (urlDeCeba ceba) :: .espera (t + e.latencia i) 1000 ::
      trazaSegunSpec e rest (i + 1) (t + e.latencia i + 1000 + e.holgura i)

/-- The located records in the words of the specification: the matched records whose
lookup returned coordinates, in order, each with its coordinates. -/
def exitos (e : Entorno) : List Ceba → Nat → List (Ceba × Coordenadas)
  | [], _ => []
  | ceba :: rest, i =>
    (match coordenadasDe (e.respuesta i (urlDeCeba ceba)) with
      | some coords => [(ceba, coords)]
      | none => []) ++ exitos e rest (i + 1)

/-- Console lines of one lookup, lines 27, 33, 39 and 43. -/
def lineasDeConsulta (e : Entorno) (i : Nat) (ceba : Ceba) : List Linea :=
  [.geolocalizando (consultaDe ceba.nombre ceba.distrito),
    match e.respuesta i (urlDeCeba ceba) with
    | .datos (_ :: _) => .coordenadasEncontradas ceba.nombre
    | .datos [] => .sinCoordenadas ceba.nombre
    | .fallo => .errorNominatim (consultaDe ceba.nombre ceba.distrito)]

/-- Console lines of the geocoding stage. -/
def lineasDelBucle (e : Entorno) : List Ceba → Nat → List Linea
  | [], _ => []
  | ceba :: rest, i => lineasDeConsulta e i ceba ++ lineasDelBucle e rest (i + 1)

/-- Clock time at the end of the geocoding stage. -/
def relojTras (e : Entorno) : List Ceba → Nat → Nat → Nat
  | [], _, t => t
  | _ :: rest, i, t => relojTras e rest (i + 1) (t + e.latencia i + 1000 + e.holgura i)

/-! ## Concrete inputs for the scenarios -/

/-- A page before the feed has arrived: the tile layer and the marker of the user on
the map, nothing on the console, no request sent. -/
def paginaEjemplo : Pagina :=
  { cebasData := []
    estado := ([], [])
    capas := [.otra 0, .marcador (-12) (-77) etiquetaUsuario]
    vista := { lat := -12, lng := -77, zoom := 12 }
    consola := []
    red := []
    reloj := 0 }

/-- The feed of end-to-end scenario 1: a header and two data rows. -/
def feedEjemplo : Texto := "Nombre,Distrito\nCEBA Norte, Lima\nCEBA Sur, Callao".toList

/-- A lookup service that returns one candidate for every request, 120 ms after it was
sent, with timers that fire 3 ms late. -/
def entornoEjemplo : Entorno :=
  { respuesta := fun _ _ => .datos [{ lat := 5, lon := 7 }]
    latencia := fun _ => 120
    holgura := fun _ => 3 }

/-- A lookup service whose first lookup fails and whose later lookups return one
candidate; lookups take 120 ms and timers fire 3 ms late. -/
def entornoFalloPrimero : Entorno :=
  { respuesta := fun i _ => if i = 0 then .fallo else .datos [{ lat := 5, lon := 7 }]
    latencia := fun _ => 120
    holgura := fun _ => 3 }

theorem toNat_ofNat_small (m : Nat) (h : m < 0xd800) : (Char.ofNat m).toNat = m := by
  have hv : m.isValidChar := Or.inl h
  unfold Char.ofNat
  rw [dif_pos hv]
  simp [Char.ofNatAux, Char.toNat, UInt32.toNat]

theorem minuscula_toNat (c : Char) :
    (minuscula c).toNat =
      if (65 ≤ c.toNat ∧ c.toNat ≤ 90) ∨ (192 ≤ c.toNat ∧ c.toNat ≤ 222 ∧ c.toNat ≠ 215)
      then c.toNat + 32 else c.toNat := by
  unfold minuscula
  simp only []
  split
  · rename_i h
    exact toNat_ofNat_small _ (by omega)
  · rfl

theorem toLowerCase_eq_nil (s : Texto) : toLowerCase s = [] ↔ s = [] := by
  simp [toLowerCase]

theorem verdadero_some (s : Texto) : verdadero (some s) = true ↔ s ≠ [] := by
  cases s <;> simp [verdadero]

/-! ## Lemmas on the feed loader -/

theorem procesarFila_eq (p : Pagina) (row : Texto) (index : Nat) :
    procesarFila p row index =
      match registroSegunSpec row with
      | some r => { p with cebasData := p.cebasData ++ [r] }
      | none => p.escribir (avisoDeFila row index) := by
  unfold procesarFila registroSegunSpec avisoDeFila
  rcases h : split ',' row with _ | ⟨n, _ | ⟨d, resto⟩⟩
  · simp
  · simp
  · by_cases hn : trim n = [] <;> by_cases hd : trim d = [] <;>
      simp [verdadero, hn, hd, toLowerCase_eq_nil]

theorem forEachFila_eq (rows : List Texto) (p : Pagina) (index : Nat) :
    forEachFila p rows index =
      { p with cebasData := p.cebasData ++ rows.filterMap registroSegunSpec
               consola := p.consola ++ avisosSegunSpec rows index } := by
  induction rows generalizing p index with
  | nil => simp [forEachFila, avisosSegunSpec]
  | cons row rest ih =>
    rw [forEachFila, ih, procesarFila_eq]
    cases h : registroSegunSpec row <;>
      simp [avisosSegunSpec, h, Pagina.escribir, List.filterMap_cons]

theorem alCargarCSV_eq (p : Pagina) (csv : Texto) :
    alCargarCSV p csv =
      { p with cebasData := (filas csv).filterMap registroSegunSpec
               consola := p.consola ++ avisosSegunSpec (filas csv) 0 ++
                 [.cargados ((filas csv).filterMap registroSegunSpec).length] } := by
  simp [alCargarCSV, forEachFila_eq, Pagina.escribir]

theorem registroSegunSpec_eq_some (row : Texto) (r : Ceba) :
    registroSegunSpec row = some r ↔
      ∃ n d resto, split ',' row = n :: d :: resto ∧ trim n ≠ [] ∧ trim d ≠ [] ∧
        r = { nombre := trim n, distrito := toLowerCase (trim d) } := by
  unfold registroSegunSpec
  rcases h : split ',' row with _ | ⟨n, _ | ⟨d, resto⟩⟩
  · simp
  · simp
  · by_cases hv : trim n ≠ [] ∧ trim d ≠ []
    · simp only [hv, ne_eq, not_false_eq_true, and_self, ↓reduceIte, Option.some.injEq,
        List.cons.injEq]
      constructor
      · intro hr
        exact ⟨n, d, resto, ⟨rfl, rfl, rfl⟩, hv.1, hv.2, hr.symm⟩
      · rintro ⟨n', d', resto', ⟨rfl, rfl, rfl⟩, -, -, hr⟩
        exact hr.symm
    · simp only [hv, ↓reduceIte, List.cons.injEq]
      constructor
      · intro hr
        exact Option.noConfusion hr
      · rintro ⟨n', d', resto', ⟨rfl, rfl, rfl⟩, hn, hd, -⟩
        exact absurd ⟨hn, hd⟩ hv

theorem registroSegunSpec_campos {row n d : Texto} {resto : List Texto}
    (h : split ',' row = n :: d :: resto) :
    registroSegunSpec row =
      if trim n ≠ [] ∧ trim d ≠ [] then
        some { nombre := trim n, distrito := toLowerCase (trim d) }
      else none := by
  simp only [registroSegunSpec, h]

theorem registroSegunSpec_eq_none (row : Texto) :
    registroSegunSpec row = none ↔
      ¬ ∃ n d resto, split ',' row = n :: d :: resto ∧ trim n ≠ [] ∧ trim d ≠ [] := by
  constructor
  · rintro h ⟨n, d, resto, hs, hn, hd⟩
    have := (registroSegunSpec_eq_some row _).2 ⟨n, d, resto, hs, hn, hd, rfl⟩
    rw [h] at this
    exact Option.noConfusion this
  · intro h
    cases hr : registroSegunSpec row with
    | none => rfl
    | some r =>
      obtain ⟨n, d, resto, hs, hn, hd, -⟩ := (registroSegunSpec_eq_some row r).1 hr
      exact absurd ⟨n, d, resto, hs, hn, hd⟩ h

theorem avisosSegunSpec_length (rows : List Texto) (index : Nat) :
    (avisosSegunSpec rows index).length =
      rows.countP (fun row => (registroSegunSpec row).isNone) := by
  induction rows generalizing index with
  | nil => rfl
  | cons row rest ih =>
    cases h : registroSegunSpec row <;>
      simp [avisosSegunSpec, h, ih, List.countP_cons]

/-! ## Lemmas on the geocoder -/

theorem char_eq_iff_toNat (a b : Char) : a = b ↔ a.toNat = b.toNat :=
  ⟨fun h => congrArg Char.toNat h,
    fun h => by rw [← Char.ofNat_toNat a, h, Char.ofNat_toNat]⟩

theorem minuscula_eq_letra (x : Char) (m : Nat) (hm : 97 ≤ m ∧ m ≤ 122) :
    (minuscula x).toNat = m ↔ x.toNat = m - 32 ∨ x.toNat = m := by
  rw [minuscula_toNat]
  split <;> omega

theorem minuscula_eq_c (x : Char) : minuscula x = 'c' ↔ x = 'C' ∨ x = 'c' := by
  rw [char_eq_iff_toNat, char_eq_iff_toNat x, char_eq_iff_toNat x]
  exact minuscula_eq_letra x 99 (by omega)

theorem minuscula_eq_e (x : Char) : minuscula x = 'e' ↔ x = 'E' ∨ x = 'e' := by
  rw [char_eq_iff_toNat, char_eq_iff_toNat x, char_eq_iff_toNat x]
  exact minuscula_eq_letra x 101 (by omega)

theorem minuscula_eq_b (x : Char) : minuscula x = 'b' ↔ x = 'B' ∨ x = 'b' := by
  rw [char_eq_iff_toNat, char_eq_iff_toNat x, char_eq_iff_toNat x]
  exact minuscula_eq_letra x 98 (by omega)

theorem minuscula_eq_a (x : Char) : minuscula x = 'a' ↔ x = 'A' ∨ x = 'a' := by
  rw [char_eq_iff_toNat, char_eq_iff_toNat x, char_eq_iff_toNat x]
  exact minuscula_eq_letra x 97 (by omega)

theorem toLowerCase_eq_ceba (pre : Texto) :
    toLowerCase pre = "ceba".toList ↔
      ∃ c e b a, pre = [c, e, b, a] ∧ (c = 'C' ∨ c = 'c') ∧ (e = 'E' ∨ e = 'e') ∧
        (b = 'B' ∨ b = 'b') ∧ (a = 'A' ∨ a = 'a') := by
  have hlit : "ceba".toList = ['c', 'e', 'b', 'a'] := rfl
  rw [hlit]
  constructor
  · intro h
    have hlen : pre.length = 4 := by
      have := congrArg List.length h
      simpa [toLowerCase] using this
    obtain ⟨c, e, b, a, rfl⟩ : ∃ c e b a, pre = [c, e, b, a] := by
      match pre, hlen with
      | [c, e, b, a], _ => exact ⟨c, e, b, a, rfl⟩
    simp only [toLowerCase, List.map_cons, List.map_nil, List.cons.injEq, and_true,
      minuscula_eq_c, minuscula_eq_e, minuscula_eq_b, minuscula_eq_a] at h
    exact ⟨c, e, b, a, rfl, h⟩
  · rintro ⟨c, e, b, a, rfl, hc, he, hb, ha⟩
    simp only [toLowerCase, List.map_cons, List.map_nil, List.cons.injEq, and_true,
      minuscula_eq_c, minuscula_eq_e, minuscula_eq_b, minuscula_eq_a]
    exact ⟨hc, he, hb, ha⟩

theorem trim_dropWhile (s : Texto) : trim (s.dropWhile esEspacio) = trim s := by
  simp only [trim, trimStart, List.dropWhile_idempotent]

theorem nombreLimpio_con_ceba (pre resto : Texto) (h : toLowerCase pre = "ceba".toList) :
    nombreLimpio (pre ++ resto) = trim resto := by
  obtain ⟨c, e, b, a, rfl, hc, he, hb, ha⟩ := (toLowerCase_eq_ceba pre).1 h
  simp only [nombreLimpio, quitarCeba, List.cons_append, List.nil_append, hc, he, hb, ha,
    and_self, if_true, trim_dropWhile]

theorem nombreLimpio_sin_ceba (nombre : Texto)
    (h : ¬ ∃ pre resto, nombre = pre ++ resto ∧ toLowerCase pre = "ceba".toList) :
    nombreLimpio nombre = trim nombre := by
  unfold nombreLimpio quitarCeba
  split
  · rename_i c e b a resto
    split
    · rename_i hc
      exact absurd ⟨[c, e, b, a], resto, rfl,
        (toLowerCase_eq_ceba _).2 ⟨c, e, b, a, rfl, hc⟩⟩ h
    · rfl
  · rfl

/-! ## Lemmas on the search pipeline -/

theorem geolocalizar_fst (e : Entorno) (i : Nat) (nombre distrito : Texto) (p : Pagina) :
    (geolocalizar e i nombre distrito p).1 =
      coordenadasDe (e.respuesta i (urlDe (consultaDe nombre distrito))) := by
  unfold geolocalizar
  rcases h : e.respuesta i (urlDe (consultaDe nombre distrito)) with (_ | ⟨c, cs⟩) | _ <;>
    simp [h, coordenadasDe]

theorem geolocalizar_snd (e : Entorno) (i : Nat) (ceba : Ceba) (p : Pagina) :
    (geolocalizar e i ceba.nombre ceba.distrito p).2 =
      { p with consola := p.consola ++ lineasDeConsulta e i ceba
               red := p.red ++ [Evento.consulta p.reloj (urlDeCeba ceba)]
               reloj := p.reloj + e.latencia i } := by
  unfold geolocalizar lineasDeConsulta urlDeCeba
  rcases h : e.respuesta i (urlDe (consultaDe ceba.nombre ceba.distrito)) with
    (_ | ⟨c, cs⟩) | _ <;>
    simp [h, Pagina.escribir]

theorem iterar_eq (e : Entorno) (i : Nat) (b : Bucle) (ceba : Ceba) :
    iterar e i b ceba =
      { pagina :=
          { b.pagina with
            capas := b.pagina.capas ++ (exitos e [ceba] i).map marcadorDe
            consola := b.pagina.consola ++ lineasDeConsulta e i ceba
            red := b.pagina.red ++ trazaSegunSpec e [ceba] i b.pagina.reloj
            reloj := b.pagina.reloj + e.latencia i + 1000 + e.holgura i }
        primeraUbicacion :=
          match b.primeraUbicacion with
          | none => ((exitos e [ceba] i).head?).map Prod.snd
          | some primera => some primera
        geolocalizados := b.geolocalizados + (exitos e [ceba] i).length } := by
  unfold iterar
  simp only [geolocalizar_fst, geolocalizar_snd, exitos, trazaSegunSpec, esperar]
  rcases h : coordenadasDe (e.respuesta i (urlDe (consultaDe ceba.nombre ceba.distrito))) with
    _ | coords
  · cases hb : b.primeraUbicacion <;> simp [urlDeCeba, h, hb]
  · cases hb : b.primeraUbicacion <;> simp [urlDeCeba, h, hb, marcadorDe]

theorem bucle_eq (e : Entorno) (cebas : List Ceba) (i : Nat) (b : Bucle) :
    bucle e cebas i b =
      { pagina :=
          { b.pagina with
            capas := b.pagina.capas ++ (exitos e cebas i).map marcadorDe
            consola := b.pagina.consola ++ lineasDelBucle e cebas i
            red := b.pagina.red ++ trazaSegunSpec e cebas i b.pagina.reloj
            reloj := relojTras e cebas i b.pagina.reloj }
        primeraUbicacion :=
          match b.primeraUbicacion with
          | none => ((exitos e cebas i).head?).map Prod.snd
          | some primera => some primera
        geolocalizados := b.geolocalizados + (exitos e cebas i).length } := by
  induction cebas generalizing i b with
  | nil =>
    cases hb : b.primeraUbicacion <;>
      simp [bucle, exitos, lineasDelBucle, trazaSegunSpec, relojTras, ← hb]
  | cons ceba rest ih =>
    rw [bucle, ih, iterar_eq]
    have hex : exitos e (ceba :: rest) i = exitos e [ceba] i ++ exitos e rest (i + 1) := by
      simp [exitos]
    have htr : ∀ t, trazaSegunSpec e (ceba :: rest) i t =
        trazaSegunSpec e [ceba] i t ++
          trazaSegunSpec e rest (i + 1) (t + e.latencia i + 1000 + e.holgura i) := by
      intro t; simp [trazaSegunSpec]
    rw [hex, htr]
    rcases h1 : exitos e [ceba] i with _ | ⟨x, xs⟩ <;>
      cases hb : b.primeraUbicacion <;>
      simp [lineasDelBucle, relojTras, Nat.add_assoc] <;>
      omega

theorem inputDe_eq_nil (valor : Texto) : inputDe valor = [] ↔ trim valor = [] :=
  toLowerCase_eq_nil _

theorem buscar_entrada_vacia (e : Entorno) (valor : Texto) (p : Pagina)
    (h : trim valor = []) :
    buscarPorDistrito e valor p =
      { p with estado := (msgIngresaDistrito, colorPorDefecto)
               consola := p.consola ++ [.inicioBusqueda, .sinDistrito] } := by
  have hi : inputDe valor = [] := (inputDe_eq_nil valor).2 h
  simp [buscarPorDistrito, hi, mostrarEstado, Pagina.escribir]

theorem buscar_base_vacia (e : Entorno) (valor : Texto) (p : Pagina)
    (h : trim valor ≠ []) (hs : p.cebasData = []) :
    buscarPorDistrito e valor p =
      { p with estado := (msgBaseNoCargada, colorPorDefecto)
               consola := p.consola ++
                 [.inicioBusqueda, .inputRecibido (inputDe valor), .baseNoCargada] } := by
  have hi : inputDe valor ≠ [] := fun hc => h ((inputDe_eq_nil valor).1 hc)
  simp [buscarPorDistrito, hi, hs, mostrarEstado, Pagina.escribir]

theorem buscar_sin_coincidencias (e : Entorno) (valor : Texto) (p : Pagina)
    (h : trim valor ≠ []) (hs : p.cebasData ≠ [])
    (hm : encontradosEn p.cebasData (inputDe valor) = []) :
    buscarPorDistrito e valor p =
      { p with estado := (msgSinCoincidencias, colorPorDefecto)
               capas := p.capas.filter (fun capa => !seQuita capa)
               consola := p.consola ++
                 [.inicioBusqueda, .inputRecibido (inputDe valor), .buscandoCoincidencias,
                  .totalEncontrados (inputDe valor) 0, .sinCoincidencias] } := by
  have hi : inputDe valor ≠ [] := fun hc => h ((inputDe_eq_nil valor).1 hc)
  simp [buscarPorDistrito, hi, hs, hm, mostrarEstado, Pagina.escribir, limpiarMarcadores]

theorem encontradosEn_ne_nil {cebasData : List Ceba} {input : Texto}
    (hm : encontradosEn cebasData input ≠ []) : cebasData ≠ [] := by
  rintro rfl
  exact hm rfl

theorem buscar_con_coincidencias (e : Entorno) (valor : Texto) (p : Pagina)
    (h : trim valor ≠ []) (hm : encontradosEn p.cebasData (inputDe valor) ≠ []) :
    buscarPorDistrito e valor p =
      { p with
        estado :=
          match exitos e (encontradosEn p.cebasData (inputDe valor)) 0 with
          | [] => (msgNingunoUbicado, colorPorDefecto)
          | x :: xs => (msgEncontrados (x :: xs).length, colorPorDefecto)
        capas := p.capas.filter (fun capa => !seQuita capa) ++
          (exitos e (encontradosEn p.cebasData (inputDe valor)) 0).map marcadorDe
        vista :=
          match exitos e (encontradosEn p.cebasData (inputDe valor)) 0 with
          | [] => p.vista
          | x :: _ => { lat := x.2.lat, lng := x.2.lng, zoom := 13 }
        consola := p.consola ++
          [.inicioBusqueda, .inputRecibido (inputDe valor), .buscandoCoincidencias,
           .totalEncontrados (inputDe valor)
             (encontradosEn p.cebasData (inputDe valor)).length,
           .inicioGeolocalizacion] ++
          lineasDelBucle e (encontradosEn p.cebasData (inputDe valor)) 0 ++
          [match exitos e (encontradosEn p.cebasData (inputDe valor)) 0 with
            | [] => .ningunoGeolocalizado
            | x :: xs => .geolocalizados (x :: xs).length,
           .finalizado]
        red := p.red ++ trazaSegunSpec e (encontradosEn p.cebasData (inputDe valor)) 0 p.reloj
        reloj := relojTras e (encontradosEn p.cebasData (inputDe valor)) 0 p.reloj } := by
  have hi : inputDe valor ≠ [] := fun hc => h ((inputDe_eq_nil valor).1 hc)
  have hs : p.cebasData ≠ [] := encontradosEn_ne_nil hm
  simp only [buscarPorDistrito, hi, hs, hm, mostrarEstado, Pagina.escribir, limpiarMarcadores,
    List.isEmpty_eq_true, List.length_eq_zero, if_false, bucle_eq, finalizar]
  rcases hex : exitos e (encontradosEn p.cebasData (inputDe valor)) 0 with _ | ⟨x, xs⟩ <;>
    simp

theorem urlsDe_append (a b : List Evento) : urlsDe (a ++ b) = urlsDe a ++ urlsDe b := by
  simp [urlsDe, List.filterMap_append]

theorem urlsDe_trazaSegunSpec (e : Entorno) (cebas : List Ceba) (i t : Nat) :
    urlsDe (trazaSegunSpec e cebas i t) = cebas.map urlDeCeba := by
  induction cebas generalizing i t with
  | nil => rfl
  | cons ceba rest ih =>
    have := ih (i + 1) (t + e.latencia i + 1000 + e.holgura i)
    simp only [urlsDe] at this
    simp [trazaSegunSpec, urlsDe, List.filterMap_cons, this]

theorem buscar_red (e : Entorno) (valor : Texto) (p : Pagina) (h : trim valor ≠ []) :
    (buscarPorDistrito e valor p).red =
      p.red ++ trazaSegunSpec e (encontradosEn p.cebasData (inputDe valor)) 0 p.reloj := by
  by_cases hm : encontradosEn p.cebasData (inputDe valor) = []
  · by_cases hs : p.cebasData = []
    · rw [buscar_base_vacia e valor p h hs, hm]
      simp [trazaSegunSpec]
    · rw [buscar_sin_coincidencias e valor p h hs hm, hm]
      simp [trazaSegunSpec]
  · rw [buscar_con_coincidencias e valor p h hm]

/-- C1 as stated fails.  The feed has a header, one data row and a last line made of
two blanks.  That last line comes after the header and its split on the comma has a
single field, so it gives no record; yet the loader writes no warning for it: the only
console line is the count of loaded records.  The same blank line between two data rows
is reported. -/
theorem fila_contraejemplo :
    split '\n' "Nombre,Distrito\nCEBA Norte, Lima\n  ".toList =
      ["Nombre,Distrito".toList, "CEBA Norte, Lima".toList, "  ".toList] ∧
    split ',' "  ".toList = ["  ".toList] ∧
    (alCargarCSV paginaEjemplo "Nombre,Distrito\nCEBA Norte, Lima\n  ".toList).consola =
      [.cargados 1] ∧
    (alCargarCSV paginaEjemplo
      "Nombre,Distrito\nCEBA Norte, Lima\n  \nCEBA Sur, Callao".toList).consola =
      [.filaMalformada 3 "  ".toList, .cargados 2] := by
  decide

/-- C1, amended.  Row criterion of the feed loader.  For every row the loader visits
(whatever the page and the index), the row adds a record to `cebasData` exactly when
its split on the comma has at least two fields whose first two are not empty once
trimmed; the record is then the trimmed first field with the trimmed, lower-cased second
field, whatever the later fields are; any other row leaves the store as it is and writes
one warning that carries its row number.  For every feed text, with its data rows taken
as line 70 takes them (the lines after the first line of the text trimmed as a whole,
so that blank lines at the two ends of the feed are not rows), the records of the store
are exactly the records of the data rows that meet the criterion, each has a non-empty
name and a non-empty district, and the console receives one warning per data row that
does not meet it. -/
theorem fila_criterio (p : Pagina) (csv : Texto) :
    (∀ (q : Pagina) (row : Texto) (index : Nat),
      ((∃ r, (procesarFila q row index).cebasData = q.cebasData ++ [r]) ↔
        ∃ n d resto, split ',' row = n :: d :: resto ∧ trim n ≠ [] ∧ trim d ≠ []) ∧
      (∀ n d resto, split ',' row = n :: d :: resto → trim n ≠ [] → trim d ≠ [] →
        procesarFila q row index =
          { q with cebasData :=
              q.cebasData ++ [{ nombre := trim n, distrito := toLowerCase (trim d) }] }) ∧
      ((¬ ∃ n d resto, split ',' row = n :: d :: resto ∧ trim n ≠ [] ∧ trim d ≠ []) →
        (procesarFila q row index = q.escribir (.filaIncompleta (index + 2)) ∨
          procesarFila q row index = q.escribir (.filaMalformada (index + 2) row))) ∧
      (∀ row' n d resto resto', split ',' row = n :: d :: resto →
        split ',' row' = n :: d :: resto' →
        (procesarFila q row' index).cebasData = (procesarFila q row index).cebasData)) ∧
    (∀ r, r ∈ (alCargarCSV p csv).cebasData ↔
      ∃ row ∈ filas csv, ∃ n d resto, split ',' row = n :: d :: resto ∧
        trim n ≠ [] ∧ trim d ≠ [] ∧
        r = { nombre := trim n, distrito := toLowerCase (trim d) }) ∧
    (∀ r ∈ (alCargarCSV p csv).cebasData, r.nombre ≠ [] ∧ r.distrito ≠ []) ∧
    (∀ row, registroSegunSpec row = none ↔
      ¬ ∃ n d resto, split ',' row = n :: d :: resto ∧ trim n ≠ [] ∧ trim d ≠ []) ∧
    (∃ avisos : List Linea,
      (alCargarCSV p csv).consola =
        p.consola ++ avisos ++ [.cargados (alCargarCSV p csv).cebasData.length] ∧
      avisos.length = (filas csv).countP (fun row => (registroSegunSpec row).isNone)) := by
  have hspec : ∀ row r, registroSegunSpec row = some r ↔
      ∃ n d resto, split ',' row = n :: d :: resto ∧ trim n ≠ [] ∧ trim d ≠ [] ∧
        r = { nombre := trim n, distrito := toLowerCase (trim d) } :=
    registroSegunSpec_eq_some
  have hnone : ∀ row, registroSegunSpec row = none ↔
      ¬ ∃ n d resto, split ',' row = n :: d :: resto ∧ trim n ≠ [] ∧ trim d ≠ [] :=
    registroSegunSpec_eq_none
  refine ⟨?_, ?_, ?_, hnone, ?_⟩
  · intro q row index
    refine ⟨?_, ?_, ?_, ?_⟩
    · rw [procesarFila_eq]
      constructor
      · rintro ⟨r, hr⟩
        by_contra hno
        rw [(hnone row).2 hno] at hr
        have := congrArg List.length hr
        simp [Pagina.escribir] at this
      · rintro ⟨n, d, resto, hs, hn, hd⟩
        rw [(hspec row _).2 ⟨n, d, resto, hs, hn, hd, rfl⟩]
        exact ⟨_, rfl⟩
    · intro n d resto hs hn hd
      rw [procesarFila_eq, (hspec row _).2 ⟨n, d, resto, hs, hn, hd, rfl⟩]
    · intro hno
      rw [procesarFila_eq, (hnone row).2 hno]
      by_cases hl : (split ',' row).length ≥ 2
      · exact Or.inl (by simp [avisoDeFila, hl])
      · exact Or.inr (by simp [avisoDeFila, hl])
    · intro row' n d resto resto' hs hs'
      rw [procesarFila_eq, procesarFila_eq, registroSegunSpec_campos hs,
        registroSegunSpec_campos hs']
      split <;> rfl
  · intro r
    rw [alCargarCSV_eq]
    simp only [List.mem_filterMap, hspec]
  · intro r hr
    rw [alCargarCSV_eq] at hr
    obtain ⟨row, -, hrow⟩ := List.mem_filterMap.1 hr
    obtain ⟨n, d, resto, -, hn, hd, rfl⟩ := (hspec row r).1 hrow
    exact ⟨hn, by simpa [toLowerCase_eq_nil] using hd⟩
  · refine ⟨avisosSegunSpec (filas csv) 0, ?_, avisosSegunSpec_length _ _⟩
    rw [alCargarCSV_eq]

/-- C4. An empty input halts the pipeline.  For every store, every set of layers and
every behaviour of the surroundings, when the value of the text field is empty once
trimmed, `buscarPorDistrito` ends with the status text that asks for a district, writes
only the start line and the warning of step 2 on the console (so the filtering of
step 3 is never reached), sends no lookup and starts no timer, and leaves the layers of
the map, the camera, the store and the clock as they were. -/
theorem entrada_vacia_detiene (e : Entorno) (valor : Texto) (p : Pagina)
    (h : trim valor = []) :
    (buscarPorDistrito e valor p).estado =
      ("⚠️ Por favor, ingresa un distrito.".toList, colorPorDefecto) ∧
    (buscarPorDistrito e valor p).consola = p.consola ++ [.inicioBusqueda, .sinDistrito] ∧
    (buscarPorDistrito e valor p).red = p.red ∧
    (buscarPorDistrito e valor p).capas = p.capas ∧
    (buscarPorDistrito e valor p).vista = p.vista ∧
    (buscarPorDistrito e valor p).cebasData = p.cebasData ∧
    (buscarPorDistrito e valor p).reloj = p.reloj := by
  rw [buscar_entrada_vacia e valor p h]
  exact ⟨rfl, rfl, rfl, rfl, rfl, rfl, rfl⟩

/-- C4, at a loaded store and an input made of blanks and a line break. -/
theorem entrada_vacia_detiene_witness :
    trim " \n  ".toList = [] ∧
    (buscarPorDistrito entornoEjemplo " \n  ".toList
      (alCargarCSV paginaEjemplo feedEjemplo)).red = [] ∧
    (buscarPorDistrito entornoEjemplo " \n  ".toList
      (alCargarCSV paginaEjemplo feedEjemplo)).capas = paginaEjemplo.capas :=
  ⟨by decide,
    (entrada_vacia_detiene entornoEjemplo " \n  ".toList
      (alCargarCSV paginaEjemplo feedEjemplo) (by decide)).2.2.1,
    (entrada_vacia_detiene entornoEjemplo " \n  ".toList
      (alCargarCSV paginaEjemplo feedEjemplo) (by decide)).2.2.2.1⟩

/-- C5 as stated fails: with an empty store and an empty input the search ends with
the status text that asks for a district, which is not the text of the store that is
not loaded. -/
theorem base_vacia_contraejemplo :
    paginaEjemplo.cebasData = [] ∧
    (buscarPorDistrito entornoEjemplo [] paginaEjemplo).estado.1 =
      "⚠️ Por favor, ingresa un distrito.".toList ∧
    (buscarPorDistrito entornoEjemplo [] paginaEjemplo).estado.1 ≠
      "⚠️ La base de datos aún no está cargada.".toList := by
  decide

/-- C5, amended.  When the store is empty, `buscarPorDistrito` sends no lookup, starts
no timer and never reaches the filtering of step 3, whatever the input; when the input
is not empty once trimmed it ends with the status text of the store that is not loaded,
leaving the layers and the camera as they were; when the input is empty once trimmed it
ends with the status text that asks for a district. -/
theorem base_vacia (e : Entorno) (valor : Texto) (p : Pagina) (hs : p.cebasData = []) :
    (buscarPorDistrito e valor p).red = p.red ∧
    Linea.buscandoCoincidencias ∉ (buscarPorDistrito e valor p).consola.drop p.consola.length ∧
    (trim valor ≠ [] →
      (buscarPorDistrito e valor p).estado =
        ("⚠️ La base de datos aún no está cargada.".toList, colorPorDefecto) ∧
      (buscarPorDistrito e valor p).consola =
        p.consola ++ [.inicioBusqueda, .inputRecibido (inputDe valor), .baseNoCargada] ∧
      (buscarPorDistrito e valor p).capas = p.capas ∧
      (buscarPorDistrito e valor p).vista = p.vista) ∧
    (trim valor = [] →
      (buscarPorDistrito e valor p).estado =
        ("⚠️ Por favor, ingresa un distrito.".toList, colorPorDefecto)) := by
  by_cases h : trim valor = []
  · rw [buscar_entrada_vacia e valor p h]
    refine ⟨rfl, ?_, fun hne => absurd h hne, fun _ => rfl⟩
    simp
  · rw [buscar_base_vacia e valor p h hs]
    refine ⟨rfl, ?_, fun _ => ⟨rfl, rfl, rfl, rfl⟩, fun h' => absurd h' h⟩
    simp

/-- C5 amended, at the page before the feed has arrived and the input "lima". -/
theorem base_vacia_witness :
    paginaEjemplo.cebasData = [] ∧
    (buscarPorDistrito entornoEjemplo "lima".toList paginaEjemplo).red = paginaEjemplo.red :=
  ⟨by decide, (base_vacia entornoEjemplo "lima".toList paginaEjemplo (by decide)).1⟩

/-- C6. Query composition of the geocoder.  For every facility name and district,
`geolocalizar` sends exactly one request, whose url carries the query
"<clean name>, <district>, Perú" (percent-encoded) and ends with `&limit=1`, and writes
that query on the console.  The clean name is the name without its leading letters
C, E, B, A (in either case) and the white space after them, trimmed; a name that does
not start with those letters is only trimmed.  In scenario 1 (data rows
"CEBA Norte, Lima" and "CEBA Sur, Callao", input "lima") the search sends exactly one
lookup, with the query "Norte, lima, Perú", whatever the lookup service does. -/
theorem consulta_geocodificador (e : Entorno) (i : Nat) (nombre distrito : Texto)
    (p : Pagina) :
    (geolocalizar e i nombre distrito p).2.red =
      p.red ++ [Evento.consulta p.reloj
        ("https://nominatim.openstreetmap.org/search?format=json&q=".toList ++
          encodeURIComponent
            (nombreLimpio nombre ++ ", ".toList ++ distrito ++ ", Perú".toList) ++
          "&limit=1".toList)] ∧
    (∃ l, (geolocalizar e i nombre distrito p).2.consola =
      p.consola ++ [.geolocalizando
        (nombreLimpio nombre ++ ", ".toList ++ distrito ++ ", Perú".toList), l]) ∧
    (∀ pre resto, nombre = pre ++ resto → toLowerCase pre = "ceba".toList →
      nombreLimpio nombre = trim resto) ∧
    ((¬ ∃ pre resto, nombre = pre ++ resto ∧ toLowerCase pre = "ceba".toList) →
      nombreLimpio nombre = trim nombre) ∧
    (alCargarCSV p feedEjemplo).cebasData =
      [{ nombre := "CEBA Norte".toList, distrito := "lima".toList },
       { nombre := "CEBA Sur".toList, distrito := "callao".toList }] ∧
    urlsDe (buscarPorDistrito e "lima".toList (alCargarCSV p feedEjemplo)).red =
      urlsDe p.red ++
        ["https://nominatim.openstreetmap.org/search?format=json&q=".toList ++
          encodeURIComponent "Norte, lima, Perú".toList ++ "&limit=1".toList] ∧
    encodeURIComponent "Norte, lima, Perú".toList = "Norte%2C%20lima%2C%20Per%C3%BA".toList := by
  have hgeo := geolocalizar_snd e i { nombre := nombre, distrito := distrito } p
  simp only at hgeo
  have hstore : (alCargarCSV p feedEjemplo).cebasData =
      [{ nombre := "CEBA Norte".toList, distrito := "lima".toList },
       { nombre := "CEBA Sur".toList, distrito := "callao".toList }] := by
    have hrec : (filas feedEjemplo).filterMap registroSegunSpec =
        [{ nombre := "CEBA Norte".toList, distrito := "lima".toList },
         { nombre := "CEBA Sur".toList, distrito := "callao".toList }] := by decide
    rw [alCargarCSV_eq, hrec]
  refine ⟨?_, ?_, ?_, nombreLimpio_sin_ceba nombre, hstore, ?_, by decide⟩
  · rw [hgeo]
    rfl
  · rw [hgeo]
    exact ⟨_, rfl⟩
  · rintro pre resto rfl hpre
    exact nombreLimpio_con_ceba pre resto hpre
  · rw [buscar_red e _ _ (by decide), urlsDe_append, urlsDe_trazaSegunSpec, hstore]
    have hred : (alCargarCSV p feedEjemplo).red = p.red := by rw [alCargarCSV_eq]
    rw [hred]
    have hsel : encontradosEn
        [{ nombre := "CEBA Norte".toList, distrito := "lima".toList },
         { nombre := "CEBA Sur".toList, distrito := "callao".toList }]
        (inputDe "lima".toList) =
        [{ nombre := "CEBA Norte".toList, distrito := "lima".toList }] := by decide
    rw [hsel]
    have hurl : urlDeCeba { nombre := "CEBA Norte".toList, distrito := "lima".toList } =
        "https://nominatim.openstreetmap.org/search?format=json&q=".toList ++
          encodeURIComponent "Norte, lima, Perú".toList ++ "&limit=1".toList := by decide
    simp only [List.map_cons, List.map_nil, hurl]

/-- C10 as stated fails.  On a page whose status region is empty: a failed load of the
feed writes an error on the console and leaves the status region empty; a feed with a
malformed row writes its warning on the console and leaves the status region empty; a
lookup that fails writes an error on the console and leaves the status region empty. -/
theorem estados_contraejemplo :
    paginaEjemplo.estado = ([], []) ∧
    (alFallarCarga paginaEjemplo).consola = [.errorCarga] ∧
    (alFallarCarga paginaEjemplo).estado = ([], []) ∧
    (alCargarCSV paginaEjemplo "Nombre,Distrito\nsolo".toList).consola =
      [.filaMalformada 2 "solo".toList, .cargados 0] ∧
    (alCargarCSV paginaEjemplo "Nombre,Distrito\nsolo".toList).estado = ([], []) ∧
    (geolocalizar entornoFalloPrimero 0 "CEBA Norte".toList "lima".toList
      paginaEjemplo).2.consola =
      [.geolocalizando "Norte, lima, Perú".toList,
       .errorNominatim "Norte, lima, Perú".toList] ∧
    (geolocalizar entornoFalloPrimero 0 "CEBA Norte".toList "lima".toList
      paginaEjemplo).2.estado = ([], []) := by
  decide

/-- C10, amended.  The four conditions of a search set their own status text: an input
that is empty once trimmed, an empty store, a filter without matches, and a batch in
which no lookup returned coordinates each end `buscarPorDistrito` with a status text of
their own, and these four texts are different from one another.  The other three
conditions set no status text: a failed load of the feed, a skipped row and a lookup
without coordinates are written on the console and leave the status region as it
was. -/
theorem mensajes_de_estado (e : Entorno) (valor csv nombre distrito : Texto) (i : Nat)
    (p : Pagina) :
    (trim valor = [] →
      (buscarPorDistrito e valor p).estado.1 = "⚠️ Por favor, ingresa un distrito.".toList) ∧
    (trim valor ≠ [] → p.cebasData = [] →
      (buscarPorDistrito e valor p).estado.1 =
        "⚠️ La base de datos aún no está cargada.".toList) ∧
    (trim valor ≠ [] → p.cebasData ≠ [] → encontradosEn p.cebasData (inputDe valor) = [] →
      (buscarPorDistrito e valor p).estado.1 =
        "⚠️ No se encontraron CEBAs para ese distrito.".toList) ∧
    (trim valor ≠ [] → encontradosEn p.cebasData (inputDe valor) ≠ [] →
      exitos e (encontradosEn p.cebasData (inputDe valor)) 0 = [] →
      (buscarPorDistrito e valor p).estado.1 =
        "⚠️ No se pudo ubicar ningún CEBA en ese distrito.".toList) ∧
    List.Pairwise (fun a b => a ≠ b)
      [msgIngresaDistrito, msgBaseNoCargada, msgSinCoincidencias, msgNingunoUbicado] ∧
    ((alFallarCarga p).estado = p.estado ∧
      (alFallarCarga p).consola = p.consola ++ [.errorCarga]) ∧
    ((alCargarCSV p csv).estado = p.estado ∧
      (∀ q row index, registroSegunSpec row = none →
        (procesarFila q row index).estado = q.estado ∧
        ((procesarFila q row index).consola = q.consola ++ [.filaIncompleta (index + 2)] ∨
          (procesarFila q row index).consola =
            q.consola ++ [.filaMalformada (index + 2) row]))) ∧
    ((geolocalizar e i nombre distrito p).2.estado = p.estado ∧
      (e.respuesta i (urlDe (consultaDe nombre distrito)) = .fallo →
        (geolocalizar e i nombre distrito p).1 = none ∧
        (geolocalizar e i nombre distrito p).2.consola =
          p.consola ++ [.geolocalizando (consultaDe nombre distrito),
            .errorNominatim (consultaDe nombre distrito)]) ∧
      (e.respuesta i (urlDe (consultaDe nombre distrito)) = .datos [] →
        (geolocalizar e i nombre distrito p).1 = none ∧
        (geolocalizar e i nombre distrito p).2.consola =
          p.consola ++ [.geolocalizando (consultaDe nombre distrito),
            .sinCoordenadas nombre])) := by
  have hgeo := geolocalizar_snd e i { nombre := nombre, distrito := distrito } p
  have hfst := geolocalizar_fst e i nombre distrito p
  simp only at hgeo
  refine ⟨?_, ?_, ?_, ?_, by decide, ⟨rfl, rfl⟩, ⟨?_, ?_⟩, ⟨?_, ?_, ?_⟩⟩
  · intro h
    rw [buscar_entrada_vacia e valor p h]
    rfl
  · intro h hs
    rw [buscar_base_vacia e valor p h hs]
    rfl
  · intro h hs hm
    rw [buscar_sin_coincidencias e valor p h hs hm]
    rfl
  · intro h hm hex
    rw [buscar_con_coincidencias e valor p h hm]
    simp only [hex]
    rfl
  · rw [alCargarCSV_eq]
  · intro q row index hnone
    rw [procesarFila_eq, hnone]
    refine ⟨rfl, ?_⟩
    by_cases hl : (split ',' row).length ≥ 2
    · exact Or.inl (by simp [avisoDeFila, hl, Pagina.escribir])
    · exact Or.inr (by simp [avisoDeFila, hl, Pagina.escribir])
  · rw [hgeo]
  · intro hr
    rw [hfst, hgeo, hr]
    refine ⟨rfl, ?_⟩
    simp [lineasDeConsulta, urlDeCeba, hr]
  · intro hr
    rw [hfst, hgeo, hr]
    refine ⟨rfl, ?_⟩
    simp [lineasDeConsulta, urlDeCeba, hr]

end MapaCebas
